import Mathlib

/-!
Verification of the spot-messages LoRa frame codecs.

Modelling conventions, from the Rust source:

* `rust_decimal::Decimal` holds an exact decimal fraction and its `PartialEq`
  compares numeric values, so it is modelled by `ℚ`. Every `Decimal` operation
  the codec uses (addition of a decimal constant, multiplication by 100 or
  100000, division by the exact constant 0.25, `round`) is exact on decimal
  inputs, so the `ℚ` operations coincide with the source semantics.
  `Decimal::round` uses banker's rounding (round half to even), modelled by
  `roundHalfEven` below.
* `scaled.to_string().parse::<u32>().unwrap()` succeeds exactly on integers in
  `[0, 2^32)` and panics otherwise; it is modelled by `u32OfInt`, with `none`
  standing for the panic.
* Machine-integer casts are explicit: `as u32` / `as u16` / `as u8` on the
  wire path truncate modulo the target width, and `DateTime::timestamp` is an
  `i64` modelled as `ℤ` (seconds since the Unix epoch).
* A `modular_bitfield_msb` bitfield packs its fields most-significant-first
  into a byte array whose byte 0 holds the most significant bits; a `with_x`
  setter panics when the value does not fit the declared width, and the
  generated enum getter panics on a bit pattern with no variant. Panics are
  modelled by `Option`, `none` being the panic.
-/

namespace SpotMessages

/-- Banker's rounding on `ℚ` (round to nearest, ties to even), the rounding
`rust_decimal::Decimal::round` performs. Uses the computable `Rat.floor`. -/
def roundHalfEven (q : ℚ) : ℤ :=
  let f := q.floor
  let frac := q - (f : ℚ)
  if frac < 1/2 then f
  else if 1/2 < frac then f + 1
  else if f % 2 = 0 then f else f + 1

/-- Model of `scaled.to_string().parse::<u32>().unwrap()` applied to an
integer-valued `Decimal`: defined (as the integer) exactly on `[0, 2^32)`,
a panic (`none`) otherwise. -/
def u32OfInt (i : ℤ) : Option ℕ :=
  if 0 ≤ i ∧ i < 2^32 then some i.toNat else none

theorem ratFloor_eq_floor (q : ℚ) : q.floor = ⌊q⌋ := by
  rw [Rat.floor_def', ← Rat.floor_def]

theorem roundHalfEven_intCast (m : ℤ) : roundHalfEven (m : ℚ) = m := by
  unfold roundHalfEven
  rw [ratFloor_eq_floor, Int.floor_intCast]
  simp

theorem roundHalfEven_half_add (m : ℤ) :
    roundHalfEven ((m : ℚ) + 1/2) = if m % 2 = 0 then m else m + 1 := by
  unfold roundHalfEven
  rw [ratFloor_eq_floor]
  have hf : ⌊(m : ℚ) + 1/2⌋ = m := by
    rw [Int.floor_eq_iff]
    constructor <;> norm_num
  rw [hf]
  norm_num

theorem u32OfInt_of_range (i : ℤ) (h0 : 0 ≤ i) (h1 : i < 2^32) :
    u32OfInt i = some i.toNat := by
  simp only [u32OfInt, if_pos (And.intro h0 h1)]

/-! ## Unit Conversion Engine (`src/gps.rs`) -/

namespace time

/-- Unix time for 2023-01-01 00:00:00 UTC (`REFERENCE` in `gps::time`). -/
def REFERENCE : ℤ := 1672531200

/-- `(datetime.timestamp() - REFERENCE) as u32`: the `as u32` cast wraps. -/
def to_lora_units (timestamp : ℤ) : ℕ := ((timestamp - REFERENCE) % 2^32).toNat

/-- `timestamp as i64 + REFERENCE`, producing the UTC timestamp. -/
def from_lora_units (u : ℕ) : ℤ := (u : ℤ) + REFERENCE

end time

namespace latlon

/-- `LAT_OFFSET = 90.00000`. -/
def LAT_OFFSET : ℚ := 90

/-- `LON_OFFSET = 180.00000`. -/
def LON_OFFSET : ℚ := 180

/-- Input coordinate tagged by axis, as in `gps::latlon::Degrees`. -/
inductive Degrees where
  | Lat (d : ℚ)
  | Lon (d : ℚ)

/-- Wire unit tagged by axis, as in `gps::latlon::Unit`. -/
inductive Unit where
  | Lat (u : ℕ)
  | Lon (u : ℕ)

/-- Offset the coordinate to a non-negative value, scale by `100000`, round,
and parse as `u32`. -/
def to_lora_units (coordinate : Degrees) : Option ℕ :=
  let offset_degrees :=
    match coordinate with
    | .Lat lat => lat + LAT_OFFSET
    | .Lon lon => lon + LON_OFFSET
  u32OfInt (roundHalfEven (offset_degrees * 100000))

/-- `Decimal::new(u, 5) - OFFSET`: unscale by `10^5` and remove the offset. -/
def from_lora_units (unit : Unit) : ℚ :=
  match unit with
  | .Lat lat => (lat : ℚ) / 100000 - LAT_OFFSET
  | .Lon lon => (lon : ℚ) / 100000 - LON_OFFSET

end latlon

namespace hdop

/-- Scale HDOP by `100`, round, parse as `u32`. -/
def to_units (hdop : ℚ) : Option ℕ := u32OfInt (roundHalfEven (hdop * 100))

/-- `Decimal::new(hdop, 2)`: the wire integer divided by `100`. -/
def from_units (hdop : ℕ) : ℚ := (hdop : ℚ) / 100

end hdop

namespace altitude

/-- `ALTITUDE_OFFSET = 110.00`. -/
def ALTITUDE_OFFSET : ℚ := 110

/-- `ALTITUDE_LORA_SCALAR = 0.25`. -/
def ALTITUDE_LORA_SCALAR : ℚ := 1/4

/-- Offset by `110`, divide by the `0.25` quantum, round, parse as `u32`. -/
def to_lora_units (altitude : ℚ) : Option ℕ :=
  u32OfInt (roundHalfEven ((altitude + ALTITUDE_OFFSET) / ALTITUDE_LORA_SCALAR))

/-- Multiply the wire integer by `0.25` and remove the `110` offset. -/
def from_lora_units (altitude : ℕ) : ℚ :=
  (altitude : ℚ) * ALTITUDE_LORA_SCALAR - ALTITUDE_OFFSET

end altitude

namespace speed

/-- `SPEED_LORA_SCALAR = 0.25`. -/
def SPEED_LORA_SCALAR : ℚ := 1/4

/-- Divide by the `0.25` quantum, round, parse as `u32`. -/
def to_lora_units (speed : ℚ) : Option ℕ :=
  u32OfInt (roundHalfEven (speed / SPEED_LORA_SCALAR))

/-- Multiply the wire integer by the `0.25` quantum. -/
def from_lora_units (speed : ℕ) : ℚ := (speed : ℚ) * SPEED_LORA_SCALAR

end speed

/-! ## Data model -/

/-- `Gps` (`src/gps.rs`): decimal fields are `rust_decimal::Decimal` (here `ℚ`),
`timestamp` a `DateTime<Utc>` (here its `i64` Unix-seconds value),
`num_sats` a `u8`. -/
structure Gps where
  timestamp : ℤ
  lat : ℚ
  lon : ℚ
  hdop : ℚ
  num_sats : ℕ
  altitude : ℚ
  speed : ℚ
deriving DecidableEq

/-- `Beacon` (`src/beacon.rs`): a GPS fix plus the truncated scan-payload
signature bytes (`Vec<u8>`). -/
structure Beacon where
  gps : Gps
  signature : List ℕ
deriving DecidableEq

/-- `CellAttachResult` (`src/cell_attach.rs`): the six declared variants. -/
inductive CellAttachResult where
  | NoAttach
  | Connected
  | LimitedService
  | NoConnection
  | Search
  | NoNetworkService
deriving DecidableEq

/-- `AttachCandidate` (`src/cell_attach.rs`): `from_scan`, `delay`, `cell_id`
are `u32`, `fcn` a `u16`, `rsrp` and `rsrq` are `i32`. -/
structure AttachCandidate where
  from_scan : ℕ
  delay : ℕ
  cell_id : ℕ
  fcn : ℕ
  rsrp : ℤ
  rsrq : ℤ
deriving DecidableEq

/-- `CellAttach` (`src/cell_attach.rs`). -/
structure CellAttach where
  attach_counter : ℕ
  gps : Gps
  candidate : AttachCandidate
  result : CellAttachResult
deriving DecidableEq

/-- `RSRP_OFFSET = 150`. -/
def RSRP_OFFSET : ℤ := 150

/-- `RSRQ_OFFSET = 30`. -/
def RSRQ_OFFSET : ℤ := 30

/-- The 3-bit wire ordinal of a `CellAttachResult` (its declared discriminant,
what the derived `BitfieldSpecifier` writes). -/
def CellAttachResult.into_bytes : CellAttachResult → ℕ
  | .NoAttach => 0
  | .Connected => 1
  | .LimitedService => 2
  | .NoConnection => 3
  | .Search => 4
  | .NoNetworkService => 5

/-- The inverse mapping of the derived `BitfieldSpecifier`: ordinals 0–5 give
the variant; the invalid bit patterns 6 and 7 make the generated getter panic
(`none`). -/
def CellAttachResult.from_bytes : ℕ → Option CellAttachResult
  | 0 => some .NoAttach
  | 1 => some .Connected
  | 2 => some .LimitedService
  | 3 => some .NoConnection
  | 4 => some .Search
  | 5 => some .NoNetworkService
  | _ => none

/-! ## Bit packing (`modular_bitfield_msb`)

A bitfield is a list of `(width, value)` pairs, first field most significant.
`packFields` concatenates them into one natural number; `extractField n low w`
reads the `w` bits that have `low` lower-order bits below them. -/

/-- Total declared bit width of a field list. -/
def widthSum (l : List (ℕ × ℕ)) : ℕ := (l.map Prod.fst).sum

/-- Concatenate `(width, value)` fields, first field in the most significant
position. -/
def packFields : List (ℕ × ℕ) → ℕ
  | [] => 0
  | (_, v) :: rest => v * 2 ^ widthSum rest + packFields rest

/-- Does a field value fit its declared width? A `modular_bitfield` `with_x`
setter panics exactly when this is false. -/
def fieldFits (p : ℕ × ℕ) : Bool := decide (p.2 < 2 ^ p.1)

/-- Read the `w`-bit field sitting above `low` lower-order bits. -/
def extractField (n low w : ℕ) : ℕ := n / 2 ^ low % 2 ^ w

/-- Big-endian byte serialization of `n` into `k` bytes (byte 0 most
significant), as `into_bytes` lays out an MSB bitfield. -/
def natToBytesBE : ℕ → ℕ → List ℕ
  | 0, _ => []
  | k + 1, n => n / 2 ^ (8 * k) % 256 :: natToBytesBE k n

/-- Big-endian recombination of a byte list into a natural number. -/
def bytesToNatBE : List ℕ → ℕ
  | [] => 0
  | b :: rest => b * 2 ^ (8 * rest.length) + bytesToNatBE rest

theorem natToBytesBE_length (k n : ℕ) : (natToBytesBE k n).length = k := by
  induction k generalizing n with
  | zero => rfl
  | succ k ih => simp [natToBytesBE, ih]

theorem bytesToNatBE_natToBytesBE (k n : ℕ) :
    bytesToNatBE (natToBytesBE k n) = n % 2 ^ (8 * k) := by
  induction k generalizing n with
  | zero => simp [natToBytesBE, bytesToNatBE, Nat.mod_one]
  | succ k ih =>
      have h : 2 ^ (8 * (k + 1)) = 2 ^ (8 * k) * 2 ^ 8 := by
        rw [← pow_add]; ring_nf
      rw [natToBytesBE, bytesToNatBE, natToBytesBE_length, ih, h, Nat.mod_mul]
      have h8 : (2:ℕ) ^ 8 = 256 := rfl
      rw [h8]
      ring

theorem packFields_lt (l : List (ℕ × ℕ)) (h : ∀ p ∈ l, fieldFits p) :
    packFields l < 2 ^ widthSum l := by
  induction l with
  | nil => simp [packFields, widthSum]
  | cons p rest ih =>
      obtain ⟨w, v⟩ := p
      have hv : v < 2 ^ w := by
        have := h (w, v) (List.mem_cons_self _ _)
        simpa [fieldFits] using this
      have hrest : packFields rest < 2 ^ widthSum rest :=
        ih fun q hq => h q (List.mem_cons_of_mem _ hq)
      have hw : widthSum ((w, v) :: rest) = w + widthSum rest := by
        simp [widthSum]
      rw [packFields, hw, pow_add]
      calc v * 2 ^ widthSum rest + packFields rest
          ≤ (2 ^ w - 1) * 2 ^ widthSum rest + packFields rest := by
            have : v ≤ 2 ^ w - 1 := by omega
            exact Nat.add_le_add_right (Nat.mul_le_mul_right _ this) _
        _ < (2 ^ w - 1) * 2 ^ widthSum rest + 2 ^ widthSum rest := by omega
        _ ≤ 2 ^ w * 2 ^ widthSum rest := by
            have h1 : (1:ℕ) ≤ 2 ^ w := Nat.one_le_two_pow
            have h2 : (2 ^ w - 1) * 2 ^ widthSum rest + 2 ^ widthSum rest
                = (2 ^ w - 1 + 1) * 2 ^ widthSum rest := by ring
            rw [h2]
            exact Nat.mul_le_mul_right _ (by omega)

/-! ## Beacon frame codec (`src/beacon.rs`), 17 bytes / 136 bits.

Field widths in declaration order: time 30, lat 25, lon 26, hdop 10, alt 10,
speed 9, num_sats 4, signature 16, padding 6. -/

/-- `u16::from_be_bytes([p.signature[0], p.signature[1]])`: reads the first
two signature bytes, panicking (`none`) when fewer than two exist; any
further bytes are ignored. -/
def beaconSignatureTag : List ℕ → Option ℕ
  | s0 :: s1 :: _ => some (s0 * 256 + s1)
  | _ => none

/-- `From<Beacon> for LoraPayload`: run each unit conversion (panic = `none`),
apply the `as u16` casts of the builder calls, and check every `with_x`
setter bound. The result is the bitfield's `(width, value)` list. -/
def Beacon.toLoraPayload (b : Beacon) : Option (List (ℕ × ℕ)) :=
  match latlon.to_lora_units (.Lat b.gps.lat),
      latlon.to_lora_units (.Lon b.gps.lon), hdop.to_units b.gps.hdop,
      altitude.to_lora_units b.gps.altitude, speed.to_lora_units b.gps.speed,
      beaconSignatureTag b.signature with
  | some latU, some lonU, some hdopU, some altU, some speedU, some tag =>
      let fields := [(30, time.to_lora_units b.gps.timestamp), (25, latU),
                     (26, lonU), (10, hdopU % 2^16), (10, altU % 2^16),
                     (9, speedU % 2^16), (4, b.gps.num_sats), (16, tag),
                     (6, 0)]
      if fields.all fieldFits then some fields else none
  | _, _, _, _, _, _ => none

/-- `Beacon::into_lora_bytes`: build the bitfield and serialize its 136 bits
into 17 big-endian bytes. -/
def Beacon.into_lora_bytes (b : Beacon) : Option (List ℕ) :=
  (b.toLoraPayload).map fun fields => natToBytesBE 17 (packFields fields)

/-- `Beacon::from_lora_bytes` via `From<LoraPayload> for Beacon`: slice each
declared bit range back out and run the inverse conversions;
`signature` is rebuilt from the 16-bit tag by `to_be_bytes`. -/
def Beacon.from_lora_bytes (bytes : List ℕ) : Beacon :=
  let n := bytesToNatBE bytes
  { gps :=
      { timestamp := time.from_lora_units (extractField n 106 30)
        lat := latlon.from_lora_units (.Lat (extractField n 81 25))
        lon := latlon.from_lora_units (.Lon (extractField n 55 26))
        hdop := hdop.from_units (extractField n 45 10)
        altitude := altitude.from_lora_units (extractField n 35 10)
        num_sats := extractField n 22 4
        speed := speed.from_lora_units (extractField n 26 9) }
    signature := [extractField n 6 16 / 256, extractField n 6 16 % 256] }

/-! ## CellAttach frame codec (`src/cell_attach.rs`), 32 bytes / 256 bits.

Field widths in declaration order: time 30, lat 25, lon 26, hdop 10, alt 10,
speed 9, num_sats 4, attach_counter 32, scan_response 32, delay 10, cid 32,
fcn 16, rsrp 8, rsrq 8, result 3, padding 1. -/

/-- `From<CellAttach> for LoraPayload`: the same GPS conversions, then the
candidate fields with their builder casts — `delay as u16`,
`(rsrp + RSRP_OFFSET) as u8`, `(rsrq + RSRQ_OFFSET) as u8` (an `i32` to `u8`
cast keeps the low 8 bits, i.e. the value modulo 256) — and
`scan_response` set from `candidate.from_scan`. -/
def CellAttach.toLoraPayload (a : CellAttach) : Option (List (ℕ × ℕ)) :=
  match latlon.to_lora_units (.Lat a.gps.lat),
      latlon.to_lora_units (.Lon a.gps.lon), hdop.to_units a.gps.hdop,
      altitude.to_lora_units a.gps.altitude,
      speed.to_lora_units a.gps.speed with
  | some latU, some lonU, some hdopU, some altU, some speedU =>
      let fields := [(30, time.to_lora_units a.gps.timestamp), (25, latU),
                     (26, lonU), (10, hdopU % 2^16), (10, altU % 2^16),
                     (9, speedU % 2^16), (4, a.gps.num_sats),
                     (32, a.attach_counter), (32, a.candidate.from_scan),
                     (10, a.candidate.delay % 2^16), (32, a.candidate.cell_id),
                     (16, a.candidate.fcn),
                     (8, ((a.candidate.rsrp + RSRP_OFFSET) % 256).toNat),
                     (8, ((a.candidate.rsrq + RSRQ_OFFSET) % 256).toNat),
                     (3, a.result.into_bytes), (1, 0)]
      if fields.all fieldFits then some fields else none
  | _, _, _, _, _ => none

/-- `CellAttach::into_lora_bytes`: build the bitfield and serialize its 256
bits into 32 big-endian bytes. -/
def CellAttach.into_lora_bytes (a : CellAttach) : Option (List ℕ) :=
  (a.toLoraPayload).map fun fields => natToBytesBE 32 (packFields fields)

/-- `CellAttach::from_lora_bytes` via `From<LoraPayload> for CellAttach`:
slice each bit range back out. The generated `p.result()` getter panics
(`none`) on the invalid 3-bit patterns 6 and 7. -/
def CellAttach.from_lora_bytes (bytes : List ℕ) : Option CellAttach :=
  let n := bytesToNatBE bytes
  (CellAttachResult.from_bytes (extractField n 1 3)).map fun result =>
    { gps :=
        { timestamp := time.from_lora_units (extractField n 226 30)
          lat := latlon.from_lora_units (.Lat (extractField n 201 25))
          lon := latlon.from_lora_units (.Lon (extractField n 175 26))
          hdop := hdop.from_units (extractField n 165 10)
          altitude := altitude.from_lora_units (extractField n 155 10)
          num_sats := extractField n 142 4
          speed := speed.from_lora_units (extractField n 146 9) }
      attach_counter := extractField n 110 32
      candidate :=
        { delay := extractField n 68 10
          from_scan := extractField n 78 32
          rsrp := (extractField n 12 8 : ℤ) - RSRP_OFFSET
          rsrq := (extractField n 4 8 : ℤ) - RSRQ_OFFSET
          fcn := extractField n 20 16
          cell_id := extractField n 36 32 }
      result := result }

/-! ## Signed payload envelope (`src/lora_payload.rs`)

The trait `IntoFromLoraPayload<const N: usize>` is modelled as a structure of
its three required members, generic in the frame type; the two default
methods become the functions below, generic in the signer and verifier
capabilities (`key.sign` / `pubkey.verify`) and in the public-key type. -/

/-- The subset of the crate's `Error` enum the envelope can produce. -/
inductive Error (PK : Type) where
  | invalidVecForParsingLoraPayload (payload : String) (size : ℕ)
  | signatureVerification (pubkey : PK) (msg : List ℕ) (signature : List ℕ)
  | key (desc : String)
deriving DecidableEq

/-- The three required members of `IntoFromLoraPayload<N>`. Encoding and
decoding return `Option` because the bitfield codecs can panic. -/
structure IntoFromLoraPayload (N : ℕ) (α : Type) where
  into_lora_bytes : α → Option (List ℕ)
  from_lora_bytes : List ℕ → Option α
  label : String

/-- Default method `into_lora_bytes_with_signature`: encode the frame, sign
the `N` bytes (a signer failure becomes `Error::Key`), drop the first two
signature bytes (`signature[2..]` panics — `none` — when the signature has
fewer than two bytes) and append the rest to the frame bytes. -/
def into_lora_bytes_with_signature (PK : Type) {N : ℕ} {α : Type}
    (C : IntoFromLoraPayload N α)
    (signFn : List ℕ → Except String (List ℕ)) (frame : α) :
    Option (Except (Error PK) (List ℕ)) :=
  (C.into_lora_bytes frame).bind fun bytes =>
    match signFn bytes with
    | .error e => some (.error (.key e))
    | .ok signature =>
        if 2 ≤ signature.length then some (.ok (bytes ++ signature.drop 2))
        else none

/-- Default method `from_lora_vec_with_verified_signature`: reject vectors
shorter than `N` with the malformed-input error naming the label and length,
split off the first `N` bytes, rebuild the signature as
`[0x30, remainder.len() as u8] ++ remainder`, verify it, and decode the
frame bytes on success. -/
def from_lora_vec_with_verified_signature {N : ℕ} {α PK : Type}
    (C : IntoFromLoraPayload N α)
    (verifyFn : PK → List ℕ → List ℕ → Bool) (pubkey : PK) (vec : List ℕ) :
    Option (Except (Error PK) α) :=
  let size := vec.length
  if size < N then
    some (.error (.invalidVecForParsingLoraPayload C.label size))
  else
    let bytes := vec.take N
    let signature_bytes := vec.drop N
    let signature := 0x30 :: signature_bytes.length % 256 :: signature_bytes
    if verifyFn pubkey bytes signature then (C.from_lora_bytes bytes).map .ok
    else some (.error (.signatureVerification pubkey bytes signature))

/-- The `impl IntoFromLoraPayload<17> for Beacon`. -/
def Beacon.lora : IntoFromLoraPayload 17 Beacon :=
  { into_lora_bytes := Beacon.into_lora_bytes
    from_lora_bytes := fun bytes => some (Beacon.from_lora_bytes bytes)
    label := "Beacon" }

/-- The `impl IntoFromLoraPayload<32> for CellAttach`. -/
def CellAttach.lora : IntoFromLoraPayload 32 CellAttach :=
  { into_lora_bytes := CellAttach.into_lora_bytes
    from_lora_bytes := CellAttach.from_lora_bytes
    label := "CellAttach" }

/-! ## Evaluation and unpacking lemmas -/

theorem roundHalfEven_floor_eq (q : ℚ) (m : ℤ) (h1 : (m : ℚ) ≤ q)
    (h2 : q < (m : ℚ) + 1) : q.floor = m := by
  rw [ratFloor_eq_floor]
  exact Int.floor_eq_iff.mpr ⟨h1, by exact_mod_cast h2⟩

theorem to_units_eval_int (q : ℚ) (k : ℕ) (h : q = (k : ℚ)) (hk : k < 2^32) :
    u32OfInt (roundHalfEven q) = some k := by
  subst h
  have hc : ((k : ℚ)) = ((k : ℤ) : ℚ) := by push_cast; ring
  rw [hc, roundHalfEven_intCast,
    u32OfInt_of_range _ (Int.natCast_nonneg k) (by exact_mod_cast hk)]
  simp

theorem to_units_eval_down (q : ℚ) (k : ℕ) (h1 : (k : ℚ) ≤ q)
    (h2 : q < (k : ℚ) + 1/2) (hk : k < 2^32) :
    u32OfInt (roundHalfEven q) = some k := by
  have hfl : q.floor = (k : ℤ) := by
    apply roundHalfEven_floor_eq q (k : ℤ)
    · exact_mod_cast h1
    · push_cast
      linarith
  have hr : roundHalfEven q = (k : ℤ) := by
    unfold roundHalfEven
    rw [hfl]
    have : q - ((k : ℤ) : ℚ) < 1/2 := by push_cast; linarith
    rw [if_pos this]
  rw [hr, u32OfInt_of_range _ (Int.natCast_nonneg k) (by exact_mod_cast hk)]
  simp

theorem to_units_eval_up (q : ℚ) (k : ℕ) (h1 : (k : ℚ) + 1/2 < q)
    (h2 : q < (k : ℚ) + 1) (hk : k + 1 < 2^32) :
    u32OfInt (roundHalfEven q) = some (k + 1) := by
  have hfl : q.floor = (k : ℤ) := by
    apply roundHalfEven_floor_eq q (k : ℤ)
    · push_cast
      linarith
    · exact_mod_cast h2
  have hr : roundHalfEven q = (k : ℤ) + 1 := by
    unfold roundHalfEven
    rw [hfl]
    have hn : ¬ q - ((k : ℤ) : ℚ) < 1/2 := by push_cast; linarith
    have hy : 1/2 < q - ((k : ℤ) : ℚ) := by push_cast; linarith
    rw [if_neg hn, if_pos hy]
  have h0 : (0:ℤ) ≤ (k : ℤ) + 1 := by positivity
  rw [hr, u32OfInt_of_range _ h0 (by exact_mod_cast hk)]
  simp

set_option maxHeartbeats 1000000 in
theorem beaconUnpack (t la lo h a s ns sg : ℕ)
    (ht : t < 2^30) (hla : la < 2^25) (hlo : lo < 2^26) (hh : h < 2^10)
    (ha : a < 2^10) (hs : s < 2^9) (hns : ns < 2^4) (hsg : sg < 2^16) :
    extractField (packFields [(30, t), (25, la), (26, lo), (10, h), (10, a),
      (9, s), (4, ns), (16, sg), (6, 0)]) 106 30 = t ∧
    extractField (packFields [(30, t), (25, la), (26, lo), (10, h), (10, a),
      (9, s), (4, ns), (16, sg), (6, 0)]) 81 25 = la ∧
    extractField (packFields [(30, t), (25, la), (26, lo), (10, h), (10, a),
      (9, s), (4, ns), (16, sg), (6, 0)]) 55 26 = lo ∧
    extractField (packFields [(30, t), (25, la), (26, lo), (10, h), (10, a),
      (9, s), (4, ns), (16, sg), (6, 0)]) 45 10 = h ∧
    extractField (packFields [(30, t), (25, la), (26, lo), (10, h), (10, a),
      (9, s), (4, ns), (16, sg), (6, 0)]) 35 10 = a ∧
    extractField (packFields [(30, t), (25, la), (26, lo), (10, h), (10, a),
      (9, s), (4, ns), (16, sg), (6, 0)]) 26 9 = s ∧
    extractField (packFields [(30, t), (25, la), (26, lo), (10, h), (10, a),
      (9, s), (4, ns), (16, sg), (6, 0)]) 22 4 = ns ∧
    extractField (packFields [(30, t), (25, la), (26, lo), (10, h), (10, a),
      (9, s), (4, ns), (16, sg), (6, 0)]) 6 16 = sg ∧
    packFields [(30, t), (25, la), (26, lo), (10, h), (10, a),
      (9, s), (4, ns), (16, sg), (6, 0)] < 2^136 := by
  simp only [packFields, widthSum, extractField, List.map, List.sum_cons,
    List.sum_nil]
  norm_num
  omega

set_option maxHeartbeats 1000000 in
theorem cellAttachUnpack (t la lo h a s ns ac sr d cid f rp rq r : ℕ)
    (ht : t < 2^30) (hla : la < 2^25) (hlo : lo < 2^26) (hh : h < 2^10)
    (ha : a < 2^10) (hs : s < 2^9) (hns : ns < 2^4) (hac : ac < 2^32)
    (hsr : sr < 2^32) (hd : d < 2^10) (hcid : cid < 2^32) (hf : f < 2^16)
    (hrp : rp < 2^8) (hrq : rq < 2^8) (hr : r < 2^3) :
    extractField (packFields [(30, t), (25, la), (26, lo), (10, h), (10, a),
      (9, s), (4, ns), (32, ac), (32, sr), (10, d), (32, cid), (16, f),
      (8, rp), (8, rq), (3, r), (1, 0)]) 78 32 = sr ∧
    extractField (packFields [(30, t), (25, la), (26, lo), (10, h), (10, a),
      (9, s), (4, ns), (32, ac), (32, sr), (10, d), (32, cid), (16, f),
      (8, rp), (8, rq), (3, r), (1, 0)]) 12 8 = rp ∧
    extractField (packFields [(30, t), (25, la), (26, lo), (10, h), (10, a),
      (9, s), (4, ns), (32, ac), (32, sr), (10, d), (32, cid), (16, f),
      (8, rp), (8, rq), (3, r), (1, 0)]) 4 8 = rq ∧
    extractField (packFields [(30, t), (25, la), (26, lo), (10, h), (10, a),
      (9, s), (4, ns), (32, ac), (32, sr), (10, d), (32, cid), (16, f),
      (8, rp), (8, rq), (3, r), (1, 0)]) 1 3 = r ∧
    packFields [(30, t), (25, la), (26, lo), (10, h), (10, a),
      (9, s), (4, ns), (32, ac), (32, sr), (10, d), (32, cid), (16, f),
      (8, rp), (8, rq), (3, r), (1, 0)] < 2^256 := by
  simp only [packFields, widthSum, extractField, List.map, List.sum_cons,
    List.sum_nil]
  norm_num
  omega

/-! ## Claim theorems -/

/-- C9: altitude 0.00 m converts to unit 440; −110.00 m converts to unit 0;
10.12 m comes back as 10.00 and 10.21 m comes back as 10.25 after one
`to_lora_units`/`from_lora_units` cycle. -/
theorem altitude_boundary_conversions :
    altitude.to_lora_units 0 = some 440 ∧
    altitude.to_lora_units (-110) = some 0 ∧
    (altitude.to_lora_units (1012/100)).map altitude.from_lora_units
      = some 10 ∧
    (altitude.to_lora_units (1021/100)).map altitude.from_lora_units
      = some (1025/100) := by
  refine ⟨?_, ?_, ?_, ?_⟩
  · simp only [altitude.to_lora_units]
    exact to_units_eval_int _ 440
      (by norm_num [altitude.ALTITUDE_OFFSET, altitude.ALTITUDE_LORA_SCALAR])
      (by norm_num)
  · simp only [altitude.to_lora_units]
    exact to_units_eval_int _ 0
      (by norm_num [altitude.ALTITUDE_OFFSET, altitude.ALTITUDE_LORA_SCALAR])
      (by norm_num)
  · simp only [altitude.to_lora_units]
    rw [to_units_eval_down _ 480
      (by norm_num [altitude.ALTITUDE_OFFSET, altitude.ALTITUDE_LORA_SCALAR])
      (by norm_num [altitude.ALTITUDE_OFFSET, altitude.ALTITUDE_LORA_SCALAR])
      (by norm_num)]
    norm_num [altitude.from_lora_units, altitude.ALTITUDE_OFFSET,
      altitude.ALTITUDE_LORA_SCALAR]
  · simp only [altitude.to_lora_units]
    rw [to_units_eval_up _ 480
      (by norm_num [altitude.ALTITUDE_OFFSET, altitude.ALTITUDE_LORA_SCALAR])
      (by norm_num [altitude.ALTITUDE_OFFSET, altitude.ALTITUDE_LORA_SCALAR])
      (by norm_num)]
    norm_num [altitude.from_lora_units, altitude.ALTITUDE_OFFSET,
      altitude.ALTITUDE_LORA_SCALAR]

/-- Modelled from the spec's words for comparison: "round to the nearest
representable unit; ties round away from zero". Standard half-away-from-zero
rounding of a rational to an integer. -/
def specRoundHalfAwayFromZero (q : ℚ) : ℤ :=
  if 0 ≤ q then (q + 1/2).floor else -((-q + 1/2).floor)

/-- C3, counterexample: the input 0.125 km/h lies exactly halfway between the
speed buckets 0 and 1 (0.00 and 0.25 km/h). The code's `to_lora_units` sends
it to bucket 0 — the bucket NEARER zero — while the spec's
round-half-away-from-zero sends `0.125/0.25 = 0.5` to 1. `Decimal::round`
uses banker's rounding, so the claim fails at this input. -/
theorem speed_tie_half_to_even_cex :
    speed.to_lora_units (1/8) = some 0 ∧
    specRoundHalfAwayFromZero ((1/8 : ℚ) / speed.SPEED_LORA_SCALAR) = 1 := by
  constructor
  · simp only [speed.to_lora_units, speed.SPEED_LORA_SCALAR]
    have h : (1/8 : ℚ) / (1/4) = ((0:ℤ) : ℚ) + 1/2 := by norm_num
    rw [h, roundHalfEven_half_add]
    norm_num [u32OfInt]
  · simp only [speed.SPEED_LORA_SCALAR, specRoundHalfAwayFromZero]
    have h : (1/8 : ℚ) / (1/4) + 1/2 = 1 := by norm_num
    rw [if_pos (by norm_num), h, ratFloor_eq_floor, Int.floor_one]

/-- Evaluate `u32OfInt ∘ roundHalfEven` on the half-integer `k + 1/2`:
banker's rounding sends the tie to the even neighbour. -/
theorem u32OfInt_half_even (k : ℕ) (hk : k < 2^31) :
    u32OfInt (roundHalfEven (((k:ℤ) : ℚ) + 1/2))
      = some (if k % 2 = 0 then k else k + 1) := by
  rw [roundHalfEven_half_add]
  by_cases h2 : k % 2 = 0
  · have hz : (k:ℤ) % 2 = 0 := by omega
    rw [if_pos hz, if_pos h2,
      u32OfInt_of_range _ (Int.natCast_nonneg k) (by push_cast; omega)]
    simp
  · have hz : ¬ (k:ℤ) % 2 = 0 := by omega
    rw [if_neg hz, if_neg h2]
    have h0 : (0:ℤ) ≤ (k:ℤ) + 1 := by positivity
    rw [u32OfInt_of_range _ h0 (by push_cast; omega)]
    simp

/-- C3, amended: at an input exactly halfway between two adjacent 0.25-steps,
`to_lora_units` (altitude and speed) rounds the tie to the EVEN bucket —
banker's rounding, inherited from `Decimal::round` — not away from zero. The
tie inputs are `(2k+1)/8` for speed and `(2k+1)/8 − 110` for altitude, halfway
between buckets `k` and `k+1`. -/
theorem tie_rounds_to_even (k : ℕ) (hk : k < 2^31) :
    speed.to_lora_units (((2 * k + 1 : ℕ) : ℚ) / 8)
      = some (if k % 2 = 0 then k else k + 1) ∧
    altitude.to_lora_units (((2 * k + 1 : ℕ) : ℚ) / 8 - 110)
      = some (if k % 2 = 0 then k else k + 1) := by
  constructor
  · simp only [speed.to_lora_units, speed.SPEED_LORA_SCALAR]
    have hq : ((2 * k + 1 : ℕ) : ℚ) / 8 / (1/4) = ((k:ℤ) : ℚ) + 1/2 := by
      push_cast; ring
    rw [hq]
    exact u32OfInt_half_even k hk
  · simp only [altitude.to_lora_units, altitude.ALTITUDE_OFFSET,
      altitude.ALTITUDE_LORA_SCALAR]
    have hq : (((2 * k + 1 : ℕ) : ℚ) / 8 - 110 + 110) / (1/4)
        = ((k:ℤ) : ℚ) + 1/2 := by
      push_cast; ring
    rw [hq]
    exact u32OfInt_half_even k hk

/-- Tie rounding at the concrete odd bucket `k = 1`: speed 0.375 km/h and
altitude −109.625 m, both halfway between buckets 1 and 2, round up to the
even bucket 2. -/
theorem tie_rounds_to_even_witness :
    speed.to_lora_units (((2 * 1 + 1 : ℕ) : ℚ) / 8)
      = some (if 1 % 2 = 0 then 1 else 1 + 1) ∧
    altitude.to_lora_units (((2 * 1 + 1 : ℕ) : ℚ) / 8 - 110)
      = some (if 1 % 2 = 0 then 1 else 1 + 1) :=
  tie_rounds_to_even 1 (by norm_num)

set_option maxHeartbeats 2000000 in
/-- C1: for a `GpsFix` within the §3 data-model ranges (latitude/longitude
exact 5-decimal values in `[-90,90]` / `[-180,180]`, HDOP an exact 2-decimal
value in `[0,10)`, altitude and speed exact multiples of the 0.25 quantum in
`[-110,145.75]` / `[0,80]`, satellite count at most 12, timestamp at or after
the reference epoch and within the 30-bit range) and a 2-byte signature tag,
decoding the encoded 17-byte Beacon frame reproduces the fix exactly. -/
theorem beacon_lora_roundtrip (b : Beacon)
    (hts0 : time.REFERENCE ≤ b.gps.timestamp)
    (hts1 : b.gps.timestamp < time.REFERENCE + 2^30)
    (hlat5 : ∃ m : ℤ, b.gps.lat * 100000 = (m : ℚ))
    (hlat0 : -90 ≤ b.gps.lat) (hlat1 : b.gps.lat ≤ 90)
    (hlon5 : ∃ m : ℤ, b.gps.lon * 100000 = (m : ℚ))
    (hlon0 : -180 ≤ b.gps.lon) (hlon1 : b.gps.lon ≤ 180)
    (hh2 : ∃ m : ℤ, b.gps.hdop * 100 = (m : ℚ))
    (hh0 : 0 ≤ b.gps.hdop) (hh1 : b.gps.hdop < 10)
    (halt4 : ∃ m : ℤ, b.gps.altitude * 4 = (m : ℚ))
    (halt0 : -110 ≤ b.gps.altitude) (halt1 : b.gps.altitude ≤ 14575/100)
    (hsp4 : ∃ m : ℤ, b.gps.speed * 4 = (m : ℚ))
    (hsp0 : 0 ≤ b.gps.speed) (hsp1 : b.gps.speed ≤ 80)
    (hns : b.gps.num_sats ≤ 12)
    (hsig : ∃ s0 s1, b.signature = [s0, s1] ∧ s0 < 256 ∧ s1 < 256) :
    (Beacon.into_lora_bytes b).map Beacon.from_lora_bytes = some b := by
  obtain ⟨mlat, hmlat⟩ := hlat5
  obtain ⟨mlon, hmlon⟩ := hlon5
  obtain ⟨mh, hmh⟩ := hh2
  obtain ⟨malt, hmalt⟩ := halt4
  obtain ⟨msp, hmsp⟩ := hsp4
  obtain ⟨s0, s1, hsigv, hs0, hs1⟩ := hsig
  -- integer bounds for the scaled field values
  have hmlatb : -9000000 ≤ mlat ∧ mlat ≤ 9000000 := by
    have h1 : (-9000000 : ℚ) ≤ (mlat : ℚ) := by rw [← hmlat]; linarith
    have h2 : (mlat : ℚ) ≤ 9000000 := by rw [← hmlat]; linarith
    exact ⟨by exact_mod_cast h1, by exact_mod_cast h2⟩
  have hmlonb : -18000000 ≤ mlon ∧ mlon ≤ 18000000 := by
    have h1 : (-18000000 : ℚ) ≤ (mlon : ℚ) := by rw [← hmlon]; linarith
    have h2 : (mlon : ℚ) ≤ 18000000 := by rw [← hmlon]; linarith
    exact ⟨by exact_mod_cast h1, by exact_mod_cast h2⟩
  have hmhb : 0 ≤ mh ∧ mh < 1000 := by
    have h1 : (0 : ℚ) ≤ (mh : ℚ) := by rw [← hmh]; linarith
    have h2 : (mh : ℚ) < 1000 := by rw [← hmh]; linarith
    exact ⟨by exact_mod_cast h1, by exact_mod_cast h2⟩
  have hmaltb : -440 ≤ malt ∧ malt ≤ 583 := by
    have h1 : (-440 : ℚ) ≤ (malt : ℚ) := by rw [← hmalt]; linarith
    have h2 : (malt : ℚ) ≤ 583 := by rw [← hmalt]; linarith
    exact ⟨by exact_mod_cast h1, by exact_mod_cast h2⟩
  have hmspb : 0 ≤ msp ∧ msp ≤ 320 := by
    have h1 : (0 : ℚ) ≤ (msp : ℚ) := by rw [← hmsp]; linarith
    have h2 : (msp : ℚ) ≤ 320 := by rw [← hmsp]; linarith
    exact ⟨by exact_mod_cast h1, by exact_mod_cast h2⟩
  -- the encoded unit value of each field
  have htime : time.to_lora_units b.gps.timestamp
      = (b.gps.timestamp - time.REFERENCE).toNat := by
    unfold time.to_lora_units
    congr 1
    rw [Int.emod_eq_of_lt (by omega) (by unfold time.REFERENCE at hts1 ⊢; omega)]
  have hlatU : latlon.to_lora_units (.Lat b.gps.lat)
      = some (mlat + 9000000).toNat := by
    have hq : (b.gps.lat + latlon.LAT_OFFSET) * 100000
        = ((mlat + 9000000 : ℤ) : ℚ) := by
      unfold latlon.LAT_OFFSET
      push_cast
      linarith [hmlat]
    show u32OfInt (roundHalfEven ((b.gps.lat + latlon.LAT_OFFSET) * 100000))
      = some (mlat + 9000000).toNat
    rw [hq, roundHalfEven_intCast, u32OfInt_of_range _ (by omega) (by omega)]
  have hlonU : latlon.to_lora_units (.Lon b.gps.lon)
      = some (mlon + 18000000).toNat := by
    have hq : (b.gps.lon + latlon.LON_OFFSET) * 100000
        = ((mlon + 18000000 : ℤ) : ℚ) := by
      unfold latlon.LON_OFFSET
      push_cast
      linarith [hmlon]
    show u32OfInt (roundHalfEven ((b.gps.lon + latlon.LON_OFFSET) * 100000))
      = some (mlon + 18000000).toNat
    rw [hq, roundHalfEven_intCast, u32OfInt_of_range _ (by omega) (by omega)]
  have hhU : hdop.to_units b.gps.hdop = some mh.toNat := by
    unfold hdop.to_units
    have hq : b.gps.hdop * 100 = ((mh : ℤ) : ℚ) := by linarith [hmh]
    rw [hq, roundHalfEven_intCast, u32OfInt_of_range _ (by omega) (by omega)]
  have haltU : altitude.to_lora_units b.gps.altitude
      = some (malt + 440).toNat := by
    unfold altitude.to_lora_units
    have hq : (b.gps.altitude + altitude.ALTITUDE_OFFSET)
        / altitude.ALTITUDE_LORA_SCALAR = ((malt + 440 : ℤ) : ℚ) := by
      unfold altitude.ALTITUDE_OFFSET altitude.ALTITUDE_LORA_SCALAR
      push_cast
      field_simp
      linarith [hmalt]
    rw [hq, roundHalfEven_intCast, u32OfInt_of_range _ (by omega) (by omega)]
  have hspU : speed.to_lora_units b.gps.speed = some msp.toNat := by
    unfold speed.to_lora_units
    have hq : b.gps.speed / speed.SPEED_LORA_SCALAR = ((msp : ℤ) : ℚ) := by
      unfold speed.SPEED_LORA_SCALAR
      field_simp
      linarith [hmsp]
    rw [hq, roundHalfEven_intCast, u32OfInt_of_range _ (by omega) (by omega)]
  have htag : beaconSignatureTag b.signature = some (s0 * 256 + s1) := by
    rw [hsigv]; rfl
  have hts0' : (1672531200 : ℤ) ≤ b.gps.timestamp := hts0
  have hts1' : b.gps.timestamp < 1672531200 + 2^30 := hts1
  have htN : (b.gps.timestamp - time.REFERENCE).toNat
      = (b.gps.timestamp - 1672531200).toNat := rfl
  have hfit : ∀ p ∈ [(30, (b.gps.timestamp - 1672531200).toNat),
       (25, (mlat + 9000000).toNat), (26, (mlon + 18000000).toNat),
       (10, mh.toNat % 2^16), (10, (malt + 440).toNat % 2^16),
       (9, msp.toNat % 2^16), (4, b.gps.num_sats), (16, s0 * 256 + s1),
       (6, 0)], fieldFits p := by
    simp only [List.mem_cons, List.not_mem_nil, or_false, fieldFits,
      decide_eq_true_eq]
    rintro p (rfl | rfl | rfl | rfl | rfl | rfl | rfl | rfl | rfl) <;>
      norm_num <;> omega
  -- the assembled bitfield
  have hfields : Beacon.toLoraPayload b = some
      [(30, (b.gps.timestamp - 1672531200).toNat),
       (25, (mlat + 9000000).toNat), (26, (mlon + 18000000).toNat),
       (10, mh.toNat % 2^16), (10, (malt + 440).toNat % 2^16),
       (9, msp.toNat % 2^16), (4, b.gps.num_sats), (16, s0 * 256 + s1),
       (6, 0)] := by
    unfold Beacon.toLoraPayload
    rw [hlatU, hlonU, hhU, haltU, hspU, htag]
    simp only []
    rw [htime, htN]
    rw [if_pos (List.all_eq_true.mpr hfit)]
  obtain ⟨he1, he2, he3, he4, he5, he6, he7, he8, hlt⟩ :=
    beaconUnpack (b.gps.timestamp - 1672531200).toNat (mlat + 9000000).toNat
      (mlon + 18000000).toNat (mh.toNat % 2^16) ((malt + 440).toNat % 2^16)
      (msp.toNat % 2^16) b.gps.num_sats (s0 * 256 + s1)
      (by omega) (by omega) (by omega) (by omega) (by omega) (by omega)
      (by omega) (by omega)
  -- the encoded bytes recombine to the packed value
  have hn : bytesToNatBE (natToBytesBE 17 (packFields
      [(30, (b.gps.timestamp - 1672531200).toNat),
       (25, (mlat + 9000000).toNat), (26, (mlon + 18000000).toNat),
       (10, mh.toNat % 2^16), (10, (malt + 440).toNat % 2^16),
       (9, msp.toNat % 2^16), (4, b.gps.num_sats), (16, s0 * 256 + s1),
       (6, 0)])) = packFields
      [(30, (b.gps.timestamp - 1672531200).toNat),
       (25, (mlat + 9000000).toNat), (26, (mlon + 18000000).toNat),
       (10, mh.toNat % 2^16), (10, (malt + 440).toNat % 2^16),
       (9, msp.toNat % 2^16), (4, b.gps.num_sats), (16, s0 * 256 + s1),
       (6, 0)] := by
    rw [bytesToNatBE_natToBytesBE]
    exact Nat.mod_eq_of_lt (by norm_num at hlt ⊢; omega)
  simp only [Beacon.into_lora_bytes, hfields, Option.map_some']
  refine congrArg some ?_
  show Beacon.from_lora_bytes _ = b
  unfold Beacon.from_lora_bytes
  simp only []
  rw [hn, he1, he2, he3, he4, he5, he6, he7, he8]
  have hb : b = ⟨⟨b.gps.timestamp, b.gps.lat, b.gps.lon, b.gps.hdop,
      b.gps.num_sats, b.gps.altitude, b.gps.speed⟩, b.signature⟩ := rfl
  rw [hb, hsigv]
  simp only [Beacon.mk.injEq, Gps.mk.injEq, List.cons.injEq, and_true,
    true_and]
  refine ⟨⟨?_, ?_, ?_, ?_, ?_, ?_⟩, ?_, ?_⟩
  · unfold time.from_lora_units time.REFERENCE
    omega
  · show ((mlat + 9000000).toNat : ℚ) / 100000 - latlon.LAT_OFFSET = b.gps.lat
    have hc : (((mlat + 9000000).toNat : ℤ) : ℚ) = (mlat : ℚ) + 9000000 := by
      rw [Int.toNat_of_nonneg (by omega)]
      push_cast
      ring
    rw [Int.cast_natCast] at hc
    rw [hc, ← hmlat]
    unfold latlon.LAT_OFFSET
    ring
  · show ((mlon + 18000000).toNat : ℚ) / 100000 - latlon.LON_OFFSET = b.gps.lon
    have hc : (((mlon + 18000000).toNat : ℤ) : ℚ) = (mlon : ℚ) + 18000000 := by
      rw [Int.toNat_of_nonneg (by omega)]
      push_cast
      ring
    rw [Int.cast_natCast] at hc
    rw [hc, ← hmlon]
    unfold latlon.LON_OFFSET
    ring
  · show ((mh.toNat % 2^16 : ℕ) : ℚ) / 100 = b.gps.hdop
    have hm : mh.toNat % 2^16 = mh.toNat := Nat.mod_eq_of_lt (by omega)
    have hc : ((mh.toNat : ℤ) : ℚ) = (mh : ℚ) := by
      rw [Int.toNat_of_nonneg (by omega)]
    rw [Int.cast_natCast] at hc
    rw [hm, hc, ← hmh]
    ring
  · have hm : (malt + 440).toNat % 2^16 = (malt + 440).toNat :=
      Nat.mod_eq_of_lt (by omega)
    show (((malt + 440).toNat % 2^16 : ℕ) : ℚ) * altitude.ALTITUDE_LORA_SCALAR
      - altitude.ALTITUDE_OFFSET = b.gps.altitude
    have hc : (((malt + 440).toNat : ℤ) : ℚ) = (malt : ℚ) + 440 := by
      rw [Int.toNat_of_nonneg (by omega)]
      push_cast
      ring
    rw [Int.cast_natCast] at hc
    rw [hm, hc, ← hmalt]
    unfold altitude.ALTITUDE_LORA_SCALAR altitude.ALTITUDE_OFFSET
    ring
  · have hm : msp.toNat % 2^16 = msp.toNat := Nat.mod_eq_of_lt (by omega)
    show ((msp.toNat % 2^16 : ℕ) : ℚ) * speed.SPEED_LORA_SCALAR = b.gps.speed
    have hc : ((msp.toNat : ℤ) : ℚ) = (msp : ℚ) := by
      rw [Int.toNat_of_nonneg (by omega)]
    rw [Int.cast_natCast] at hc
    rw [hm, hc, ← hmsp]
    unfold speed.SPEED_LORA_SCALAR
    ring
  · omega
  · omega

/-- A concrete in-range fix: the reference epoch plus 5 seconds, the origin
coordinate, 5 satellites. -/
def exGps : Gps :=
  { timestamp := 1672531205, lat := 0, lon := 0, hdop := 0, num_sats := 5,
    altitude := 0, speed := 0 }

/-- A concrete beacon: `exGps` with the 2-byte signature tag `0xABCD`. -/
def exBeacon : Beacon := { gps := exGps, signature := [171, 205] }

/-- The Beacon round-trip at the concrete fix `exBeacon`. -/
theorem beacon_lora_roundtrip_witness :
    (Beacon.into_lora_bytes exBeacon).map Beacon.from_lora_bytes
      = some exBeacon :=
  beacon_lora_roundtrip exBeacon
    (by norm_num [exBeacon, exGps, time.REFERENCE])
    (by norm_num [exBeacon, exGps, time.REFERENCE])
    ⟨0, by norm_num [exBeacon, exGps]⟩
    (by norm_num [exBeacon, exGps]) (by norm_num [exBeacon, exGps])
    ⟨0, by norm_num [exBeacon, exGps]⟩
    (by norm_num [exBeacon, exGps]) (by norm_num [exBeacon, exGps])
    ⟨0, by norm_num [exBeacon, exGps]⟩
    (by norm_num [exBeacon, exGps]) (by norm_num [exBeacon, exGps])
    ⟨0, by norm_num [exBeacon, exGps]⟩
    (by norm_num [exBeacon, exGps]) (by norm_num [exBeacon, exGps])
    ⟨0, by norm_num [exBeacon, exGps]⟩
    (by norm_num [exBeacon, exGps]) (by norm_num [exBeacon, exGps])
    (by norm_num [exBeacon, exGps])
    ⟨171, 205, by norm_num [exBeacon], by norm_num, by norm_num⟩

/-- The unit values of `exGps`, stated for any record equal to it so the
equations apply verbatim to `exBeacon.gps`, `exAttach.gps`, … -/
theorem exGps_units (g : Gps) (hg : g = exGps) :
    latlon.to_lora_units (.Lat g.lat) = some 9000000 ∧
    latlon.to_lora_units (.Lon g.lon) = some 18000000 ∧
    hdop.to_units g.hdop = some 0 ∧
    altitude.to_lora_units g.altitude = some 440 ∧
    speed.to_lora_units g.speed = some 0 ∧
    time.to_lora_units g.timestamp = 5 := by
  subst hg
  refine ⟨?_, ?_, ?_, ?_, ?_, by decide⟩
  · show u32OfInt (roundHalfEven ((exGps.lat + latlon.LAT_OFFSET) * 100000))
      = some 9000000
    exact to_units_eval_int _ 9000000
      (by norm_num [exGps, latlon.LAT_OFFSET]) (by norm_num)
  · show u32OfInt (roundHalfEven ((exGps.lon + latlon.LON_OFFSET) * 100000))
      = some 18000000
    exact to_units_eval_int _ 18000000
      (by norm_num [exGps, latlon.LON_OFFSET]) (by norm_num)
  · exact to_units_eval_int _ 0 (by norm_num [exGps]) (by norm_num)
  · exact to_units_eval_int _ 440
      (by norm_num [exGps, altitude.ALTITUDE_OFFSET,
        altitude.ALTITUDE_LORA_SCALAR]) (by norm_num)
  · exact to_units_eval_int _ 0
      (by norm_num [exGps, speed.SPEED_LORA_SCALAR]) (by norm_num)

/-- The 17 bytes of `exBeacon`'s frame. -/
def exBeaconBytes : List ℕ :=
  [0, 0, 0, 21, 18, 168, 128, 137, 84, 64, 0, 13, 192, 1, 106, 243, 64]

theorem exBeacon_payload : Beacon.toLoraPayload exBeacon = some
    [(30, 5), (25, 9000000), (26, 18000000), (10, 0), (10, 440), (9, 0),
     (4, 5), (16, 43981), (6, 0)] := by
  obtain ⟨h1, h2, h3, h4, h5, h6⟩ := exGps_units exBeacon.gps rfl
  unfold Beacon.toLoraPayload
  rw [h1, h2, h3, h4, h5]
  simp only []
  rw [h6]
  decide

theorem exBeacon_bytes :
    Beacon.into_lora_bytes exBeacon = some exBeaconBytes := by
  simp only [Beacon.into_lora_bytes, exBeacon_payload, Option.map_some']
  decide

/-- A concrete in-range attach candidate whose cell came from scan slot 5. -/
def exCandidate : AttachCandidate :=
  { from_scan := 5, delay := 3, cell_id := 77, fcn := 2, rsrp := -100,
    rsrq := -10 }

/-- A concrete in-range CellAttach record. -/
def exAttach : CellAttach :=
  { attach_counter := 9, gps := exGps, candidate := exCandidate,
    result := .Connected }

/-- The 32 bytes of `exAttach`'s frame. -/
def exAttachBytes : List ℕ :=
  [0, 0, 0, 21, 18, 168, 128, 137, 84, 64, 0, 13, 192, 1, 64, 0, 0, 2, 64,
   0, 0, 1, 64, 48, 0, 0, 4, 208, 0, 35, 33, 66]

theorem exAttach_payload : CellAttach.toLoraPayload exAttach = some
    [(30, 5), (25, 9000000), (26, 18000000), (10, 0), (10, 440), (9, 0),
     (4, 5), (32, 9), (32, 5), (10, 3), (32, 77), (16, 2), (8, 50), (8, 20),
     (3, 1), (1, 0)] := by
  obtain ⟨h1, h2, h3, h4, h5, h6⟩ := exGps_units exAttach.gps rfl
  unfold CellAttach.toLoraPayload
  rw [h1, h2, h3, h4, h5]
  simp only []
  rw [h6]
  decide

theorem exAttach_bytes :
    CellAttach.into_lora_bytes exAttach = some exAttachBytes := by
  simp only [CellAttach.into_lora_bytes, exAttach_payload, Option.map_some']
  decide

/-- An attach candidate whose rsrp, −151 dBm, lies below the smallest value
the 8-bit offset encoding can carry (−150 dBm). -/
def exBadCandidate : AttachCandidate :=
  { from_scan := 0, delay := 0, cell_id := 1, fcn := 1, rsrp := -151,
    rsrq := -10 }

/-- A concrete CellAttach record with the out-of-range rsrp. -/
def exAttachBad : CellAttach :=
  { attach_counter := 1, gps := exGps, candidate := exBadCandidate,
    result := .NoAttach }

/-- The 32 bytes `exAttachBad` encodes to (rsrp slot = 255). -/
def exAttachBadBytes : List ℕ :=
  [0, 0, 0, 21, 18, 168, 128, 137, 84, 64, 0, 13, 192, 1, 64, 0, 0, 0, 64,
   0, 0, 0, 0, 0, 0, 0, 0, 16, 0, 31, 241, 64]

theorem exAttachBad_payload : CellAttach.toLoraPayload exAttachBad = some
    [(30, 5), (25, 9000000), (26, 18000000), (10, 0), (10, 440), (9, 0),
     (4, 5), (32, 1), (32, 0), (10, 0), (32, 1), (16, 1), (8, 255), (8, 20),
     (3, 0), (1, 0)] := by
  obtain ⟨h1, h2, h3, h4, h5, h6⟩ := exGps_units exAttachBad.gps rfl
  unfold CellAttach.toLoraPayload
  rw [h1, h2, h3, h4, h5]
  simp only []
  rw [h6]
  decide

theorem exAttachBad_bytes :
    CellAttach.into_lora_bytes exAttachBad = some exAttachBadBytes := by
  simp only [CellAttach.into_lora_bytes, exAttachBad_payload,
    Option.map_some']
  decide

/-- The derived enum codec inverts the ordinal of every declared variant. -/
theorem cellAttachResult_from_into (v : CellAttachResult) :
    CellAttachResult.from_bytes v.into_bytes = some v := by
  cases v <;> rfl

/-- Inversion of the CellAttach encoder: whenever encoding succeeds, the
candidate-related bit ranges of the produced frame hold `from_scan`
(the `scan_response` slot), the mod-256-wrapped offset rsrp and rsrq bytes,
and the result ordinal. -/
theorem cellattach_wire_fields (a : CellAttach) (bytes : List ℕ)
    (h : CellAttach.into_lora_bytes a = some bytes) :
    extractField (bytesToNatBE bytes) 78 32 = a.candidate.from_scan ∧
    extractField (bytesToNatBE bytes) 12 8
      = ((a.candidate.rsrp + RSRP_OFFSET) % 256).toNat ∧
    extractField (bytesToNatBE bytes) 4 8
      = ((a.candidate.rsrq + RSRQ_OFFSET) % 256).toNat ∧
    extractField (bytesToNatBE bytes) 1 3 = a.result.into_bytes := by
  unfold CellAttach.into_lora_bytes CellAttach.toLoraPayload at h
  cases hx1 : latlon.to_lora_units (.Lat a.gps.lat) with
  | none => rw [hx1] at h; simp at h
  | some latU =>
  rw [hx1] at h
  cases hx2 : latlon.to_lora_units (.Lon a.gps.lon) with
  | none => rw [hx2] at h; simp at h
  | some lonU =>
  rw [hx2] at h
  cases hx3 : hdop.to_units a.gps.hdop with
  | none => rw [hx3] at h; simp at h
  | some hdopU =>
  rw [hx3] at h
  cases hx4 : altitude.to_lora_units a.gps.altitude with
  | none => rw [hx4] at h; simp at h
  | some altU =>
  rw [hx4] at h
  cases hx5 : speed.to_lora_units a.gps.speed with
  | none => rw [hx5] at h; simp at h
  | some speedU =>
  rw [hx5] at h
  simp only [] at h
  split at h
  case isFalse => simp at h
  case isTrue hc =>
  simp only [Option.map_some', Option.some.injEq] at h
  subst h
  simp only [List.all_cons, List.all_nil, Bool.and_eq_true, fieldFits,
    decide_eq_true_eq, and_true] at hc
  obtain ⟨hb1, hb2, hb3, hb4, hb5, hb6, hb7, hb8, hb9, hb10, hb11, hb12,
    hb13, hb14, hb15, hb16⟩ := hc
  obtain ⟨e1, e2, e3, e4, hlt⟩ :=
    cellAttachUnpack (time.to_lora_units a.gps.timestamp) latU lonU
      (hdopU % 2^16) (altU % 2^16) (speedU % 2^16) a.gps.num_sats
      a.attach_counter a.candidate.from_scan (a.candidate.delay % 2^16)
      a.candidate.cell_id a.candidate.fcn
      ((a.candidate.rsrp + RSRP_OFFSET) % 256).toNat
      ((a.candidate.rsrq + RSRQ_OFFSET) % 256).toNat a.result.into_bytes
      hb1 hb2 hb3 hb4 hb5 hb6 hb7 hb8 hb9 hb10 hb11 hb12 hb13 hb14 hb15
  rw [bytesToNatBE_natToBytesBE]
  have hm : (8 : ℕ) * 32 = 256 := rfl
  rw [hm, Nat.mod_eq_of_lt hlt]
  exact ⟨e1, e2, e3, e4⟩

/-- C2, counterexample: for the concrete record `exAttach`, whose candidate
was built with `from_scan = 5`, the encoder writes 5 — not zero — into the
32-bit `scan_response` slot (bits above the low 78), and the decoder reads
that slot back into `candidate.from_scan`. -/
theorem scan_response_not_zero_cex :
    (CellAttach.into_lora_bytes exAttach).map
        (fun bytes => extractField (bytesToNatBE bytes) 78 32) = some 5 ∧
    ((CellAttach.into_lora_bytes exAttach).bind
        CellAttach.from_lora_bytes).map
        (fun r => r.candidate.from_scan) = some 5 ∧ (5 : ℕ) ≠ 0 := by
  rw [exAttach_bytes]
  refine ⟨by decide, by decide, by norm_num⟩

/-- C2, amended: the `scan_response` slot is not reserved-zero; the encoder
stores `candidate.from_scan` in it, and the decoder reads it back into
`candidate.from_scan`. -/
theorem scan_response_carries_from_scan (a : CellAttach) (bytes : List ℕ)
    (h : CellAttach.into_lora_bytes a = some bytes) :
    extractField (bytesToNatBE bytes) 78 32 = a.candidate.from_scan ∧
    (CellAttach.from_lora_bytes bytes).map (fun r => r.candidate.from_scan)
      = some a.candidate.from_scan := by
  obtain ⟨e1, -, -, e4⟩ := cellattach_wire_fields a bytes h
  refine ⟨e1, ?_⟩
  unfold CellAttach.from_lora_bytes
  simp only []
  rw [e4, cellAttachResult_from_into]
  simp only [Option.map_some']
  rw [e1]

/-- The `scan_response` behaviour at the concrete record `exAttach`. -/
theorem scan_response_carries_from_scan_witness :
    extractField (bytesToNatBE exAttachBytes) 78 32
      = exAttach.candidate.from_scan ∧
    (CellAttach.from_lora_bytes exAttachBytes).map
        (fun r => r.candidate.from_scan)
      = some exAttach.candidate.from_scan :=
  scan_response_carries_from_scan exAttach exAttachBytes exAttach_bytes

/-- C4, counterexample: a 32-byte frame whose 3-bit result field holds the
ordinal 6 (the frame encoding the natural number 12 = 6·2, so bits 1–3 are
110). Decoding it panics in the generated `result()` getter — modelled as
`none` — rather than returning a defined invalid-ordinal error: the frame
decoder's type has no error channel at all (the `InvalidAttachResultInt`
error exists only on the protobuf path). -/
theorem result_ordinal6_panics_cex :
    CellAttach.from_lora_bytes (natToBytesBE 32 12) = none ∧
    extractField (bytesToNatBE (natToBytesBE 32 12)) 1 3 = 6 := by
  refine ⟨by decide, by decide⟩

/-- C4, amended: decoding each defined `CellAttachResult` ordinal (0–5)
round-trips to the same variant, and the 3-bit patterns 6 and 7 are rejected
— but by a panic of the generated getter (modelled `none`), not by a
returned invalid-ordinal error value. -/
theorem result_ordinal_roundtrip_or_panic :
    (∀ v : CellAttachResult,
      CellAttachResult.from_bytes v.into_bytes = some v) ∧
    CellAttachResult.from_bytes 6 = none ∧
    CellAttachResult.from_bytes 7 = none ∧
    (∀ bytes : List ℕ, extractField (bytesToNatBE bytes) 1 3 = 6 ∨
        extractField (bytesToNatBE bytes) 1 3 = 7 →
      CellAttach.from_lora_bytes bytes = none) := by
  refine ⟨cellAttachResult_from_into, rfl, rfl, ?_⟩
  intro bytes h
  unfold CellAttach.from_lora_bytes
  simp only []
  rcases h with h | h <;> rw [h] <;> rfl

/-- C5, counterexample: the record `exAttachBad` carries rsrp = −151 dBm,
below the encodable range. Encoding does not fail: it succeeds and writes
(−151 + 150) mod 256 = 255 into the 8-bit rsrp slot, which decodes back as
255 − 150 = 105 dBm — the value is silently wrapped, not surfaced as a
caller error. -/
theorem rsrp_masked_cex :
    CellAttach.into_lora_bytes exAttachBad = some exAttachBadBytes ∧
    extractField (bytesToNatBE exAttachBadBytes) 12 8 = 255 ∧
    (CellAttach.from_lora_bytes exAttachBadBytes).map
        (fun r => r.candidate.rsrp) = some 105 ∧
    exAttachBad.candidate.rsrp = -151 := by
  refine ⟨exAttachBad_bytes, by decide, by decide, by decide⟩

/-- C5, amended: out-of-range rsrp/rsrq are not surfaced as a caller error:
whenever encoding succeeds, the frame's rsrp and rsrq slots hold the offset
values wrapped modulo 256 by the `as u8` casts (silent masking). -/
theorem rsrp_rsrq_silently_wrapped (a : CellAttach) (bytes : List ℕ)
    (h : CellAttach.into_lora_bytes a = some bytes) :
    extractField (bytesToNatBE bytes) 12 8
      = ((a.candidate.rsrp + RSRP_OFFSET) % 256).toNat ∧
    extractField (bytesToNatBE bytes) 4 8
      = ((a.candidate.rsrq + RSRQ_OFFSET) % 256).toNat := by
  obtain ⟨-, e2, e3, -⟩ := cellattach_wire_fields a bytes h
  exact ⟨e2, e3⟩

/-- The rsrp/rsrq wrapping at the concrete record `exAttachBad`. -/
theorem rsrp_rsrq_silently_wrapped_witness :
    extractField (bytesToNatBE exAttachBadBytes) 12 8
      = ((exAttachBad.candidate.rsrp + RSRP_OFFSET) % 256).toNat ∧
    extractField (bytesToNatBE exAttachBadBytes) 4 8
      = ((exAttachBad.candidate.rsrq + RSRQ_OFFSET) % 256).toNat :=
  rsrp_rsrq_silently_wrapped exAttachBad exAttachBadBytes exAttachBad_bytes

/-- Every successful Beacon encoding yields exactly 17 bytes. -/
theorem beacon_into_lora_bytes_length (b : Beacon) (bytes : List ℕ)
    (h : Beacon.into_lora_bytes b = some bytes) : bytes.length = 17 := by
  unfold Beacon.into_lora_bytes at h
  cases hp : Beacon.toLoraPayload b with
  | none => rw [hp] at h; simp at h
  | some fs =>
      rw [hp] at h
      simp only [Option.map_some', Option.some.injEq] at h
      subst h
      exact natToBytesBE_length _ _

/-- C10: the Beacon encoder reads `signature[0]` and `signature[1]`
unconditionally; with fewer than 2 signature bytes it panics (encoding is
`none`), and any bytes after the first 2 are ignored — the frame depends
only on `signature[0..2]`. -/
theorem beacon_encode_needs_two_signature_bytes :
    (∀ b : Beacon, b.signature.length < 2 →
      Beacon.into_lora_bytes b = none) ∧
    (∀ (g : Gps) (s0 s1 : ℕ) (rest : List ℕ),
      Beacon.into_lora_bytes ⟨g, s0 :: s1 :: rest⟩
        = Beacon.into_lora_bytes ⟨g, [s0, s1]⟩) := by
  constructor
  · intro b hlen
    have htag : beaconSignatureTag b.signature = none := by
      cases hs : b.signature with
      | nil => rfl
      | cons x t =>
        cases t with
        | nil => rfl
        | cons y r =>
          rw [hs] at hlen
          exact absurd hlen (by simp)
    unfold Beacon.into_lora_bytes Beacon.toLoraPayload
    rw [htag]
    cases latlon.to_lora_units (.Lat b.gps.lat) <;>
      cases latlon.to_lora_units (.Lon b.gps.lon) <;>
      cases hdop.to_units b.gps.hdop <;>
      cases altitude.to_lora_units b.gps.altitude <;>
      cases speed.to_lora_units b.gps.speed <;> rfl
  · intro g s0 s1 rest
    rfl

/-- The signature precondition at concrete beacons: the empty signature makes
encoding panic, and a third signature byte does not change the frame. -/
theorem beacon_encode_needs_two_signature_bytes_witness :
    Beacon.into_lora_bytes { gps := exGps, signature := [] } = none ∧
    Beacon.into_lora_bytes { gps := exGps, signature := [171, 205, 7] }
      = Beacon.into_lora_bytes { gps := exGps, signature := [171, 205] } :=
  ⟨beacon_encode_needs_two_signature_bytes.1 _ (by decide),
   beacon_encode_needs_two_signature_bytes.2 exGps 171 205 [7]⟩

/-- C6: a byte vector shorter than the frame size `N` makes
`from_lora_vec_with_verified_signature` fail with the malformed-input error
naming the frame label and the observed length. The verifier is quantified
over, so the result cannot depend on it — it is never consulted. -/
theorem from_lora_vec_short_input {N : ℕ} {α PK : Type}
    (C : IntoFromLoraPayload N α)
    (verifyFn : PK → List ℕ → List ℕ → Bool) (pubkey : PK) (vec : List ℕ)
    (h : vec.length < N) :
    from_lora_vec_with_verified_signature C verifyFn pubkey vec
      = some (.error
          (.invalidVecForParsingLoraPayload C.label vec.length)) := by
  unfold from_lora_vec_with_verified_signature
  rw [if_pos h]

/-- The short-input error at a concrete 3-byte vector against the 17-byte
Beacon frame, with a verifier that accepts everything (and is not reached). -/
theorem from_lora_vec_short_input_witness :
    from_lora_vec_with_verified_signature Beacon.lora
        (fun (_ : ℕ) _ _ => true) 0 [1, 2, 3]
      = some (.error (.invalidVecForParsingLoraPayload "Beacon" 3)) :=
  from_lora_vec_short_input Beacon.lora (fun _ _ _ => true) 0 [1, 2, 3]
    (by decide)

/-- C7: for a frame whose encoding is the `N`-byte vector `bytes` and a
signer output of at least 2 bytes, signing emits
`bytes ++ signature[2..]` — a vector of exactly `N + (|signature| − 2)`
bytes whose first `N` bytes are the plain encoding. -/
theorem into_lora_bytes_with_signature_layout {N : ℕ} {α PK : Type}
    (C : IntoFromLoraPayload N α)
    (signFn : List ℕ → Except String (List ℕ)) (frame : α)
    (bytes sig : List ℕ)
    (henc : C.into_lora_bytes frame = some bytes)
    (hN : bytes.length = N)
    (hsig : signFn bytes = .ok sig) (h2 : 2 ≤ sig.length) :
    into_lora_bytes_with_signature PK C signFn frame
      = some (.ok (bytes ++ sig.drop 2)) ∧
    (bytes ++ sig.drop 2).length = N + (sig.length - 2) ∧
    (bytes ++ sig.drop 2).take N = bytes := by
  subst hN
  refine ⟨?_, ?_, ?_⟩
  · unfold into_lora_bytes_with_signature
    rw [henc]
    simp only [Option.some_bind']
    rw [hsig]
    simp only []
    rw [if_pos h2]
  · simp
  · exact List.take_left _ _

/-- The signed-vector layout at `exBeacon` with the signer output
`[0x30, 3, 9, 9, 9]`. -/
theorem into_lora_bytes_with_signature_layout_witness :
    into_lora_bytes_with_signature ℕ Beacon.lora
        (fun _ => .ok [48, 3, 9, 9, 9]) exBeacon
      = some (.ok (exBeaconBytes ++ [9, 9, 9])) ∧
    (exBeaconBytes ++ [9, 9, 9]).length = 17 + 3 ∧
    (exBeaconBytes ++ [9, 9, 9]).take 17 = exBeaconBytes :=
  into_lora_bytes_with_signature_layout Beacon.lora
    (fun _ => .ok [48, 3, 9, 9, 9]) exBeacon exBeaconBytes [48, 3, 9, 9, 9]
    exBeacon_bytes (by decide) rfl (by norm_num)

/-- C8: provided the signer emits `0x30 :: restLen :: rest` with
`restLen = |rest| < 256` (the self-describing signature shape the envelope
assumes), verify-after-sign reconstructs exactly the signer's signature; if
the verifier accepts it the decoded frame `decode(encode(frame))` is
returned, and if it rejects, the error carries the public key, the `N`
message bytes and the reconstructed signature. -/
theorem signed_roundtrip {N : ℕ} {α PK : Type}
    (C : IntoFromLoraPayload N α)
    (signFn : List ℕ → Except String (List ℕ))
    (verifyFn : PK → List ℕ → List ℕ → Bool) (pubkey : PK) (frame : α)
    (bytes rest : List ℕ) (restLen : ℕ)
    (henc : C.into_lora_bytes frame = some bytes)
    (hN : bytes.length = N)
    (hsig : signFn bytes = .ok (0x30 :: restLen :: rest))
    (hrest : rest.length = restLen) (hr256 : restLen < 256) :
    ∃ out, into_lora_bytes_with_signature PK C signFn frame
        = some (.ok out) ∧
      from_lora_vec_with_verified_signature C verifyFn pubkey out
        = (if verifyFn pubkey bytes (0x30 :: restLen :: rest) then
            (C.from_lora_bytes bytes).map .ok
          else some (.error (.signatureVerification pubkey bytes
            (0x30 :: restLen :: rest)))) := by
  subst hN
  refine ⟨bytes ++ rest, ?_, ?_⟩
  · unfold into_lora_bytes_with_signature
    rw [henc]
    simp only [Option.some_bind']
    rw [hsig]
    simp only []
    rw [if_pos (by simp)]
    rfl
  · unfold from_lora_vec_with_verified_signature
    simp only []
    have hlen : (bytes ++ rest).length = bytes.length + restLen := by
      simp [hrest]
    rw [if_neg (by omega)]
    rw [List.take_left, List.drop_left]
    rw [hrest, Nat.mod_eq_of_lt hr256]

/-- The signed round-trip at `exBeacon` with signer output `[0x30, 1, 7]`
and a verifier that accepts the reconstructed signature. -/
theorem signed_roundtrip_witness :
    ∃ out, into_lora_bytes_with_signature ℕ Beacon.lora
        (fun _ => .ok [48, 1, 7]) exBeacon = some (.ok out) ∧
      from_lora_vec_with_verified_signature Beacon.lora
          (fun (_ : ℕ) _ _ => true) 0 out
        = some (.ok (Beacon.from_lora_bytes exBeaconBytes)) := by
  obtain ⟨out, h1, h2⟩ := signed_roundtrip Beacon.lora
    (fun _ => .ok [48, 1, 7]) (fun (_ : ℕ) _ _ => true) 0 exBeacon
    exBeaconBytes [7] 1 exBeacon_bytes rfl rfl rfl (by norm_num)
  rw [if_pos rfl] at h2
  exact ⟨out, h1, h2⟩

end SpotMessages
